import Mathlib

/-!
Formal model of the health-analysis / diet-plan pipeline in src/app.py.

Numbers are modelled as exact rationals (the Python implementation uses
floats; all quantities of interest here are exactly representable and no
claim hinges on binary floating-point representation error).  Python string
operations are modelled character-wise on the underlying character lists,
with structural recursion so that every definition evaluates inside the
kernel:

* str.strip        -> pyStrip          (whitespace = space, tab, CR, LF)
* str.startswith   -> pyStartswith     (character-prefix test)
* str.split(sep)   -> pySplit          (single-character separator)
* int(s)           -> pyInt?           (optionally signed decimal literal,
                                        surrounding whitespace allowed)
* sep.join(l)      -> pyJoin
* round(x, 1)      -> pyRound1         (round-half-to-even, as Python round)
-/

/-- Python str.strip(): drop leading and trailing whitespace. -/
def pyStrip (s : String) : String :=
  ⟨((s.data.dropWhile Char.isWhitespace).reverse.dropWhile Char.isWhitespace).reverse⟩

/-- Python str.startswith(p): p is a character-prefix of s. -/
def pyStartswith (s p : String) : Bool :=
  p.data.isPrefixOf s.data

/-- Auxiliary for pySplit: scan the characters, cutting at each separator. -/
def pySplitAux (sep : Char) : List Char → List Char → List String
  | [], acc => [⟨acc.reverse⟩]
  | c :: cs, acc =>
    if c = sep then ⟨acc.reverse⟩ :: pySplitAux sep cs []
    else pySplitAux sep cs (c :: acc)

/-- Python s.split(sep) for a one-character separator sep. -/
def pySplit (s : String) (sep : Char) : List String :=
  pySplitAux sep s.data []

/-- Numeric value of a list of decimal digit characters. -/
def digitsVal (l : List Char) : ℕ :=
  l.foldl (fun acc c => 10 * acc + (c.toNat - 48)) 0

/-- Python int(s) on decimal string literals: optional surrounding
whitespace, optional sign, at least one digit.  (Underscore separators and
non-ASCII digits, which Python also accepts, are not modelled; no input in
this development uses them.) -/
def pyInt? (s : String) : Option ℤ :=
  match (pyStrip s).data with
  | '-' :: rest =>
    if rest ≠ [] ∧ rest.all Char.isDigit then some (-(digitsVal rest : ℤ)) else none
  | '+' :: rest =>
    if rest ≠ [] ∧ rest.all Char.isDigit then some (digitsVal rest : ℤ) else none
  | l =>
    if l ≠ [] ∧ l.all Char.isDigit then some (digitsVal l : ℤ) else none

/-- Python sep.join(l). -/
def pyJoin (sep : String) : List String → String
  | [] => ""
  | [a] => a
  | a :: b :: rest => a ++ sep ++ pyJoin sep (b :: rest)

/-- Round a rational to the nearest integer, ties to even — the rounding
mode of Python's built-in round(). -/
def round_half_even (q : ℚ) : ℤ :=
  if q - ⌊q⌋ < 1/2 then ⌊q⌋
  else if 1/2 < q - ⌊q⌋ then ⌊q⌋ + 1
  else if ⌊q⌋ % 2 = 0 then ⌊q⌋ else ⌊q⌋ + 1

/-- Python round(x, 1). -/
def pyRound1 (q : ℚ) : ℚ :=
  (round_half_even (q * 10) : ℚ) / 10

/-- app.py:82-83 — calculate_bmi(weight, height) = weight / ((height/100) ** 2). -/
def calculate_bmi (weight height : ℚ) : ℚ :=
  weight / ((height / 100) ^ 2)

/-- app.py:104 — systolic, diastolic = map(int, bp.split('/')); the parse
succeeds iff the string splits into exactly two integer literals. -/
def parse_bp (bp : String) : Option (ℤ × ℤ) :=
  match (pySplit bp '/').map pyInt? with
  | [some systolic, some diastolic] => some (systolic, diastolic)
  | _ => none

/-- app.py:93-100 — the BMI classification chain (applied to the rounded
BMI stored in results("bmi")). -/
def bmiCategory (bmi : ℚ) : String :=
  if bmi < 18.5 then "Underweight"
  else if 18.5 ≤ bmi ∧ bmi < 25 then "Normal weight"
  else if 25 ≤ bmi ∧ bmi < 30 then "Overweight"
  else "Obese"

/-- The results dictionary built by analyze_health (app.py:86-90), plus a
flag recording whether the except-branch at app.py:107-108 fired (the
st.error warning for a malformed blood-pressure string). -/
structure HealthResults where
  bmi : ℚ
  conditions : List String
  age : ℤ
  bpError : Bool
deriving DecidableEq

/-- app.py:85-119 — analyze_health.  Returns none exactly when the height
is zero, in which case calculate_bmi raises ZeroDivisionError and the
exception propagates out of analyze_health; in every other case the
function returns its results dictionary.  The blood-pressure try/except
(app.py:103-108) appends "Hypertension" only when the string parses, and
otherwise only reports an error message and continues. -/
def analyze_health (age : ℤ) (weight height : ℚ) (bp : String)
    (sugar cholesterol : ℚ) : Option HealthResults :=
  if height = 0 then none
  else
    let bmi := pyRound1 (calculate_bmi weight height)
    let conditions := [bmiCategory bmi]
    let step :=
      match parse_bp bp with
      | some (systolic, diastolic) =>
        if systolic ≥ 140 ∨ diastolic ≥ 90 then (conditions ++ ["Hypertension"], false)
        else (conditions, false)
      | none => (conditions, true)
    let conditions := step.1
    let conditions := if sugar ≥ 126 then conditions ++ ["High Blood Sugar"] else conditions
    let conditions := if cholesterol ≥ 200 then conditions ++ ["High Cholesterol"] else conditions
    some ⟨bmi, conditions, age, step.2⟩

/-- app.py:125-129 — the fixed fallback recommendation list. -/
def default_recommendations : List String :=
  ["Balanced nutrition with variety of foods",
   "Stay hydrated (8 glasses of water daily)",
   "Regular meal timings"]

/-- app.py:132-139 — the recommendation-extraction loop of
generate_diet_plan: scan the lines of the context, keep each stripped line
that starts with the marker, and fall back to the defaults when the
context is empty or no line qualifies. -/
def extract_recommendations (context : String) : List String :=
  if context = "" then default_recommendations
  else
    let context_recommendations :=
      (pySplit context '\n').foldl
        (fun acc line =>
          if pyStartswith (pyStrip line) "- " then acc ++ [pyStrip line] else acc) []
    if context_recommendations = [] then default_recommendations
    else context_recommendations

/-- app.py:161 — every recommendation string is rendered into the plan text
as a bullet line with a "- " prefix added in front of it. -/
def rendered_recommendation_lines (recs : List String) : List String :=
  recs.map (fun r => "- " ++ r)

/-- app.py:206 — query = " ".join(health_data('conditions')). -/
def build_query (conditions : List String) : String :=
  pyJoin " " conditions

/-- app.py:205 — retriever = health_index.as_retriever(similarity_top_k=2). -/
def similarity_top_k : ℕ := 2

/-- The four weight-category labels of the BMI classification. -/
def weight_category_labels : List String :=
  ["Underweight", "Normal weight", "Overweight", "Obese"]

/-- The three threshold-condition labels. -/
def threshold_condition_labels : List String :=
  ["Hypertension", "High Blood Sugar", "High Cholesterol"]

/-- Normal form of analyze_health away from the zero-height failure case:
the condition list is the weight label followed by the optional threshold
labels, in evaluation order. -/
theorem analyze_health_eq (age : ℤ) (weight height : ℚ) (bp : String)
    (sugar cholesterol : ℚ) (hh : height ≠ 0) :
    analyze_health age weight height bp sugar cholesterol =
      some ⟨pyRound1 (calculate_bmi weight height),
        [bmiCategory (pyRound1 (calculate_bmi weight height))]
          ++ (match parse_bp bp with
              | some (systolic, diastolic) =>
                if systolic ≥ 140 ∨ diastolic ≥ 90 then ["Hypertension"] else []
              | none => [])
          ++ (if sugar ≥ 126 then ["High Blood Sugar"] else [])
          ++ (if cholesterol ≥ 200 then ["High Cholesterol"] else []),
        age, (parse_bp bp).isNone⟩ := by
  rcases hbp : parse_bp bp with _ | ⟨systolic, diastolic⟩ <;>
    simp only [analyze_health, hbp, if_neg hh] <;>
    split_ifs <;>
    simp

/-- The classification always produces one of the four weight labels. -/
theorem bmiCategory_mem_labels (q : ℚ) : bmiCategory q ∈ weight_category_labels := by
  unfold bmiCategory weight_category_labels
  split_ifs <;> simp

/-- A weight label is never one of the threshold-condition labels. -/
theorem bmiCategory_not_threshold (q : ℚ) :
    bmiCategory q ≠ "Hypertension" ∧ bmiCategory q ≠ "High Blood Sugar" ∧
    bmiCategory q ≠ "High Cholesterol" := by
  unfold bmiCategory
  split_ifs <;> refine ⟨?_, ?_, ?_⟩ <;> simp

/-- Every weight label is a nonempty string. -/
theorem bmiCategory_length_pos (q : ℚ) : 0 < (bmiCategory q).length := by
  unfold bmiCategory
  split_ifs <;> decide

/-- Away from the tie, rounding half-to-even agrees with nearest-integer
rounding. -/
theorem round_half_even_eq_of_near (q : ℚ) (n : ℤ) (h1 : (n : ℚ) - 1/2 < q)
    (h2 : q < (n : ℚ) + 1/2) : round_half_even q = n := by
  unfold round_half_even
  rcases le_or_lt (n : ℚ) q with hle | hlt
  · have hf : ⌊q⌋ = n := by
      rw [Int.floor_eq_iff]
      constructor
      · exact_mod_cast hle
      · calc q < (n : ℚ) + 1/2 := h2
          _ ≤ (n : ℚ) + 1 := by linarith
    rw [hf]
    rw [if_pos (by linarith)]
  · have hf : ⌊q⌋ = n - 1 := by
      rw [Int.floor_eq_iff]
      constructor
      · push_cast
        linarith
      · push_cast
        linarith
    rw [hf]
    rw [if_neg (by push_cast; linarith), if_pos (by push_cast; linarith)]
    omega

/-- Evaluation: the healthy end-to-end scenario (age 30, 70 kg, 170 cm,
BP 120/80, sugar 100, cholesterol 180). -/
theorem eval_normal :
    analyze_health 30 70 170 "120/80" 100 180 =
      some ⟨121/5, ["Normal weight"], 30, false⟩ := by
  have hb : pyRound1 (calculate_bmi 70 170) = 121/5 := by
    rw [calculate_bmi, pyRound1, round_half_even]; norm_num
  have hbp : parse_bp "120/80" = some (120, 80) := by decide
  rw [analyze_health_eq _ _ _ _ _ _ (by norm_num : (170:ℚ) ≠ 0), hbp, hb]
  norm_num [bmiCategory]

/-- Evaluation: all three thresholds hit exactly (BP 140/90, sugar 126,
cholesterol 200). -/
theorem eval_thresholds :
    analyze_health 30 70 170 "140/90" 126 200 =
      some ⟨121/5,
        ["Normal weight", "Hypertension", "High Blood Sugar", "High Cholesterol"],
        30, false⟩ := by
  have hb : pyRound1 (calculate_bmi 70 170) = 121/5 := by
    rw [calculate_bmi, pyRound1, round_half_even]; norm_num
  have hbp : parse_bp "140/90" = some (140, 90) := by decide
  rw [analyze_health_eq _ _ _ _ _ _ (by norm_num : (170:ℚ) ≠ 0), hbp, hb]
  norm_num [bmiCategory]

/-- Evaluation: malformed blood-pressure string; the warning flag is set,
hypertension is skipped, the rest of the pipeline still runs. -/
theorem eval_bp_malformed :
    analyze_health 30 70 170 "abc" 130 210 =
      some ⟨121/5, ["Normal weight", "High Blood Sugar", "High Cholesterol"],
        30, true⟩ := by
  have hb : pyRound1 (calculate_bmi 70 170) = 121/5 := by
    rw [calculate_bmi, pyRound1, round_half_even]; norm_num
  have hbp : parse_bp "abc" = none := by decide
  rw [analyze_health_eq _ _ _ _ _ _ (by norm_num : (170:ℚ) ≠ 0), hbp, hb]
  norm_num [bmiCategory]

/-- Evaluation: a negative height is not rejected — the BMI is computed
(the square cancels the sign) and classified normally. -/
theorem eval_negative_height :
    analyze_health 30 70 (-170) "120/80" 100 180 =
      some ⟨121/5, ["Normal weight"], 30, false⟩ := by
  have hb : pyRound1 (calculate_bmi 70 (-170)) = 121/5 := by
    rw [calculate_bmi, pyRound1, round_half_even]; norm_num
  have hbp : parse_bp "120/80" = some (120, 80) := by decide
  rw [analyze_health_eq _ _ _ _ _ _ (by norm_num : (-170:ℚ) ≠ 0), hbp, hb]
  norm_num [bmiCategory]

/-- Evaluation: a negative weight is not rejected — the negative BMI is
computed and classified as "Underweight". -/
theorem eval_negative_weight :
    analyze_health 30 (-70) 170 "120/80" 100 180 =
      some ⟨-(121/5), ["Underweight"], 30, false⟩ := by
  have hb : pyRound1 (calculate_bmi (-70) 170) = -(121/5) := by
    rw [calculate_bmi, pyRound1, round_half_even]; norm_num
  have hbp : parse_bp "120/80" = some (120, 80) := by decide
  rw [analyze_health_eq _ _ _ _ _ _ (by norm_num : (170:ℚ) ≠ 0), hbp, hb]
  norm_num [bmiCategory]

/-- Evaluation: weight 72.2 kg at 170 cm gives a raw BMI of 7220/289
(about 24.98, strictly below 25) which rounds to 25.0 and is classified
"Overweight". -/
theorem eval_rounding_edge :
    analyze_health 30 (361/5) 170 "120/80" 100 180 =
      some ⟨25, ["Overweight"], 30, false⟩ := by
  have hb : pyRound1 (calculate_bmi (361/5) 170) = 25 := by
    rw [calculate_bmi, pyRound1, round_half_even]; norm_num
  have hbp : parse_bp "120/80" = some (120, 80) := by decide
  rw [analyze_health_eq _ _ _ _ _ _ (by norm_num : (170:ℚ) ≠ 0), hbp, hb]
  norm_num [bmiCategory]

/-- The extraction loop of generate_diet_plan collects exactly the stripped
qualifying lines, in source order. -/
theorem extract_foldl_eq (l : List String) (init : List String) :
    l.foldl
        (fun acc line =>
          if pyStartswith (pyStrip line) "- " then acc ++ [pyStrip line] else acc) init
      = init ++ (l.filter (fun line => pyStartswith (pyStrip line) "- ")).map pyStrip := by
  induction l generalizing init with
  | nil => simp
  | cons a t ih =>
    by_cases h : pyStartswith (pyStrip a) "- " <;>
      simp [h, ih, List.filter_cons]

/-- Joining a nonempty list never shortens its first element. -/
theorem pyJoin_length (a : String) (l : List String) :
    a.length ≤ (pyJoin " " (a :: l)).length := by
  cases l with
  | nil => simp [pyJoin]
  | cons b t =>
    show a.length ≤ (a ++ " " ++ pyJoin " " (b :: t)).length
    simp
    omega

/-- Prepending the bullet marker to a string that already carries the
marker produces a doubled marker. -/
theorem pyStartswith_append_marker (r : String) (h : pyStartswith r "- " = true) :
    pyStartswith ("- " ++ r) "- - " = true := by
  unfold pyStartswith at h ⊢
  rw [ List.isPrefixOf_iff_prefix] at h
  rw [ List.isPrefixOf_iff_prefix]
  have hd : ("- - " : String).data = ("- " : String).data ++ ("- " : String).data := by decide
  rw [hd, String.data_append]
  exact (List.prefix_append_right_inj _).mpr h

/-- C1: for every successfully analysed input, the condition list starts
with the weight-category label determined by the stored BMI, that label is
one of the four weight categories, every later entry is one of the three
threshold-condition labels appended after it, and the list contains
exactly one weight-category label (the head). -/
theorem C1_condition_set_shape (age : ℤ) (weight height : ℚ) (bp : String)
    (sugar cholesterol : ℚ) (r : HealthResults)
    (hr : analyze_health age weight height bp sugar cholesterol = some r) :
    r.conditions.head? = some (bmiCategory r.bmi) ∧
    bmiCategory r.bmi ∈ weight_category_labels ∧
    (∀ x ∈ r.conditions.tail, x ∈ threshold_condition_labels) ∧
    r.conditions.filter (fun x => decide (x ∈ weight_category_labels))
      = [bmiCategory r.bmi] := by
  have hh : height ≠ 0 := by
    intro h0
    rw [h0] at hr
    simp [analyze_health] at hr
  rw [analyze_health_eq age weight height bp sugar cholesterol hh] at hr
  injection hr with hr
  subst hr
  dsimp only
  have hmem := bmiCategory_mem_labels (pyRound1 (calculate_bmi weight height))
  refine ⟨?_, hmem, ?_, ?_⟩
  · simp
  · rcases parse_bp bp with _ | ⟨sys, dia⟩ <;>
      split_ifs <;>
      simp [threshold_condition_labels] <;>
      tauto
  · rcases parse_bp bp with _ | ⟨sys, dia⟩ <;>
      split_ifs <;>
      simp_all [List.filter_append, weight_category_labels]

/-- Witness for C1 at the healthy scenario. -/
theorem C1_condition_set_shape_witness :
    (HealthResults.conditions ⟨121/5, ["Normal weight"], 30, false⟩).head?
        = some (bmiCategory (HealthResults.bmi ⟨121/5, ["Normal weight"], 30, false⟩)) ∧
    bmiCategory (HealthResults.bmi ⟨121/5, ["Normal weight"], 30, false⟩)
        ∈ weight_category_labels ∧
    (∀ x ∈ (HealthResults.conditions ⟨121/5, ["Normal weight"], 30, false⟩).tail,
        x ∈ threshold_condition_labels) ∧
    (HealthResults.conditions ⟨121/5, ["Normal weight"], 30, false⟩).filter
        (fun x => decide (x ∈ weight_category_labels))
      = [bmiCategory (HealthResults.bmi ⟨121/5, ["Normal weight"], 30, false⟩)] :=
  C1_condition_set_shape 30 70 170 "120/80" 100 180 _ eval_normal

/-- C2: the weight label as a function of the stored BMI follows the four
brackets, with each boundary value landing in the upper bracket. -/
theorem C2_bmi_brackets (bmi : ℚ) :
    (bmiCategory bmi = "Underweight" ↔ bmi < 18.5) ∧
    (bmiCategory bmi = "Normal weight" ↔ 18.5 ≤ bmi ∧ bmi < 25) ∧
    (bmiCategory bmi = "Overweight" ↔ 25 ≤ bmi ∧ bmi < 30) ∧
    (bmiCategory bmi = "Obese" ↔ 30 ≤ bmi) ∧
    bmiCategory (18.5 : ℚ) = "Normal weight" ∧
    bmiCategory (25 : ℚ) = "Overweight" ∧
    bmiCategory (30 : ℚ) = "Obese" := by
  have i1 : bmiCategory bmi = "Underweight" ↔ bmi < 18.5 := by
    unfold bmiCategory
    split_ifs with ha hb hc
    · exact iff_of_true rfl ha
    · exact iff_of_false (by simp) ha
    · exact iff_of_false (by simp) ha
    · exact iff_of_false (by simp) ha
  have i2 : bmiCategory bmi = "Normal weight" ↔ 18.5 ≤ bmi ∧ bmi < 25 := by
    unfold bmiCategory
    split_ifs with ha hb hc
    · exact iff_of_false (by simp) (by rintro ⟨h, -⟩; linarith)
    · exact iff_of_true rfl hb
    · exact iff_of_false (by simp) hb
    · exact iff_of_false (by simp) hb
  have i3 : bmiCategory bmi = "Overweight" ↔ 25 ≤ bmi ∧ bmi < 30 := by
    unfold bmiCategory
    split_ifs with ha hb hc
    · exact iff_of_false (by simp) (by rintro ⟨h, -⟩; linarith)
    · exact iff_of_false (by simp) (by rintro ⟨h, -⟩; linarith [hb.2])
    · exact iff_of_true rfl hc
    · exact iff_of_false (by simp) hc
  have i4 : bmiCategory bmi = "Obese" ↔ 30 ≤ bmi := by
    unfold bmiCategory
    split_ifs with ha hb hc
    · exact iff_of_false (by simp) (by intro h; linarith)
    · exact iff_of_false (by simp) (by intro h; linarith [hb.2])
    · exact iff_of_false (by simp) (by intro h; linarith [hc.2])
    · have h25 : 25 ≤ bmi := not_lt.mp fun hlt => hb ⟨not_lt.mp ha, hlt⟩
      have h30 : 30 ≤ bmi := not_lt.mp fun hlt => hc ⟨h25, hlt⟩
      exact iff_of_true rfl h30
  have h1 : bmiCategory (18.5:ℚ) = "Normal weight" := by rw [bmiCategory]; norm_num
  have h2 : bmiCategory (25:ℚ) = "Overweight" := by rw [bmiCategory]; norm_num
  have h3 : bmiCategory (30:ℚ) = "Obese" := by rw [bmiCategory]; norm_num
  exact ⟨i1, i2, i3, i4, h1, h2, h3⟩

/-- C4: with a successfully parsed blood-pressure string, "Hypertension"
is present iff systolic ≥ 140 or diastolic ≥ 90, "High Blood Sugar" iff
sugar ≥ 126, and "High Cholesterol" iff cholesterol ≥ 200 — all three
thresholds inclusive. -/
theorem C4_threshold_conditions (age : ℤ) (weight height : ℚ) (bp : String)
    (sugar cholesterol : ℚ) (systolic diastolic : ℤ) (r : HealthResults)
    (hbp : parse_bp bp = some (systolic, diastolic))
    (hr : analyze_health age weight height bp sugar cholesterol = some r) :
    ("Hypertension" ∈ r.conditions ↔ systolic ≥ 140 ∨ diastolic ≥ 90) ∧
    ("High Blood Sugar" ∈ r.conditions ↔ sugar ≥ 126) ∧
    ("High Cholesterol" ∈ r.conditions ↔ cholesterol ≥ 200) := by
  have hh : height ≠ 0 := by
    intro h0
    rw [h0] at hr
    simp [analyze_health] at hr
  rw [analyze_health_eq age weight height bp sugar cholesterol hh] at hr
  injection hr with hr
  subst hr
  have hcat := bmiCategory_not_threshold (pyRound1 (calculate_bmi weight height))
  rw [hbp]
  dsimp only
  split_ifs with hA hB hC <;>
    simp_all [Ne.symm hcat.1, Ne.symm hcat.2.1, Ne.symm hcat.2.2]

/-- Witness for C4 at the exact threshold values 140/90, 126, 200. -/
theorem C4_threshold_conditions_witness :
    ("Hypertension" ∈
        (HealthResults.conditions
          ⟨121/5, ["Normal weight", "Hypertension", "High Blood Sugar", "High Cholesterol"],
            30, false⟩) ↔ (140:ℤ) ≥ 140 ∨ (90:ℤ) ≥ 90) ∧
    ("High Blood Sugar" ∈
        (HealthResults.conditions
          ⟨121/5, ["Normal weight", "Hypertension", "High Blood Sugar", "High Cholesterol"],
            30, false⟩) ↔ (126:ℚ) ≥ 126) ∧
    ("High Cholesterol" ∈
        (HealthResults.conditions
          ⟨121/5, ["Normal weight", "Hypertension", "High Blood Sugar", "High Cholesterol"],
            30, false⟩) ↔ (200:ℚ) ≥ 200) :=
  C4_threshold_conditions 30 70 170 "140/90" 126 200 140 90 _ (by decide) eval_thresholds

/-- C5: when the blood-pressure string does not parse, the error flag is
reported, hypertension is omitted, and the weight, sugar and cholesterol
evaluations still run and are returned. -/
theorem C5_bp_parse_failure (age : ℤ) (weight height : ℚ) (bp : String)
    (sugar cholesterol : ℚ) (r : HealthResults)
    (hbp : parse_bp bp = none)
    (hr : analyze_health age weight height bp sugar cholesterol = some r) :
    r.bpError = true ∧
    "Hypertension" ∉ r.conditions ∧
    r.conditions =
      bmiCategory r.bmi ::
        ((if sugar ≥ 126 then ["High Blood Sugar"] else []) ++
          (if cholesterol ≥ 200 then ["High Cholesterol"] else [])) := by
  have hh : height ≠ 0 := by
    intro h0
    rw [h0] at hr
    simp [analyze_health] at hr
  rw [analyze_health_eq age weight height bp sugar cholesterol hh] at hr
  injection hr with hr
  subst hr
  have hcat := bmiCategory_not_threshold (pyRound1 (calculate_bmi weight height))
  rw [hbp]
  dsimp only
  split_ifs with hB hC <;>
    simp_all [Ne.symm hcat.1, Ne.symm hcat.2.1, Ne.symm hcat.2.2]

/-- Witness for C5 at the malformed string "abc". -/
theorem C5_bp_parse_failure_witness :
    (HealthResults.bpError
        ⟨121/5, ["Normal weight", "High Blood Sugar", "High Cholesterol"], 30, true⟩) = true ∧
    "Hypertension" ∉
      (HealthResults.conditions
        ⟨121/5, ["Normal weight", "High Blood Sugar", "High Cholesterol"], 30, true⟩) ∧
    (HealthResults.conditions
        ⟨121/5, ["Normal weight", "High Blood Sugar", "High Cholesterol"], 30, true⟩) =
      bmiCategory
          (HealthResults.bmi
            ⟨121/5, ["Normal weight", "High Blood Sugar", "High Cholesterol"], 30, true⟩) ::
        ((if (130:ℚ) ≥ 126 then ["High Blood Sugar"] else []) ++
          (if (210:ℚ) ≥ 200 then ["High Cholesterol"] else [])) :=
  C5_bp_parse_failure 30 70 170 "abc" 130 210 _ (by decide) eval_bp_malformed

/-- C3 counterexample: with the non-positive height -170 the analysis does
not fail — it returns a computed BMI and a classification, so a negative
value propagates silently into the result. -/
theorem C3_counterexample :
    (-170 : ℚ) ≤ 0 ∧
    analyze_health 30 70 (-170) "120/80" 100 180 =
      some ⟨121/5, ["Normal weight"], 30, false⟩ :=
  ⟨by norm_num, eval_negative_height⟩

/-- C3 (amended): the code performs no input validation and defines no
InvalidInputError.  With height exactly 0 the analysis aborts, but only
because the division in calculate_bmi raises ZeroDivisionError; any other
non-positive height or weight is accepted silently and produces a computed
BMI and weight classification. -/
theorem C3_no_input_validation :
    (∀ (age : ℤ) (weight : ℚ) (bp : String) (sugar cholesterol : ℚ),
        analyze_health age weight 0 bp sugar cholesterol = none) ∧
    analyze_health 30 70 (-170) "120/80" 100 180 =
      some ⟨121/5, ["Normal weight"], 30, false⟩ ∧
    analyze_health 30 (-70) 170 "120/80" 100 180 =
      some ⟨-(121/5), ["Underweight"], 30, false⟩ := by
  refine ⟨?_, eval_negative_height, eval_negative_weight⟩
  intro age weight bp sugar cholesterol
  simp [analyze_health]

/-- C6: the extracted recommendation list is exactly the stripped lines of
the context that start with the marker, in source order; the fixed default
list is returned exactly when the context is empty or no line qualifies;
the result is always one of the two lists, never a mix. -/
theorem C6_recommendation_extraction (context : String) :
    extract_recommendations context =
      (if context = "" ∨
          (pySplit context '\n').filter (fun line => pyStartswith (pyStrip line) "- ") = []
        then default_recommendations
        else ((pySplit context '\n').filter
            (fun line => pyStartswith (pyStrip line) "- ")).map pyStrip) ∧
    (extract_recommendations context = default_recommendations ∨
      extract_recommendations context =
        ((pySplit context '\n').filter
            (fun line => pyStartswith (pyStrip line) "- ")).map pyStrip) := by
  have key : extract_recommendations context =
      (if context = "" ∨
          (pySplit context '\n').filter (fun line => pyStartswith (pyStrip line) "- ") = []
        then default_recommendations
        else ((pySplit context '\n').filter
            (fun line => pyStartswith (pyStrip line) "- ")).map pyStrip) := by
    unfold extract_recommendations
    by_cases hc : context = ""
    · simp [hc]
    · rw [if_neg hc, extract_foldl_eq]
      simp only [List.nil_append]
      by_cases hq :
          (pySplit context '\n').filter (fun line => pyStartswith (pyStrip line) "- ") = []
      · simp [hq, hc]
      · simp [hq, hc, List.map_eq_nil_iff]
  refine ⟨key, ?_⟩
  rw [key]
  split_ifs with h
  · exact Or.inl rfl
  · exact Or.inr rfl

/-- C7: the end-to-end scenario age 45, weight 95, height 170, BP 150/95,
sugar 130, cholesterol 210 yields the exact BMI 9500/289, stored rounded
as 32.9, and the four conditions in evaluation order. -/
theorem C7_end_to_end_scenario :
    calculate_bmi 95 170 = 9500/289 ∧
    (329/10 : ℚ) = 32.9 ∧
    analyze_health 45 95 170 "150/95" 130 210 =
      some ⟨329/10, ["Obese", "Hypertension", "High Blood Sugar", "High Cholesterol"],
        45, false⟩ := by
  refine ⟨by rw [calculate_bmi]; norm_num, by norm_num, ?_⟩
  have hb : pyRound1 (calculate_bmi 95 170) = 329/10 := by
    rw [calculate_bmi, pyRound1, round_half_even]; norm_num
  have hbp : parse_bp "150/95" = some (150, 95) := by decide
  rw [analyze_health_eq _ _ _ _ _ _ (by norm_num : (170:ℚ) ≠ 0), hbp, hb]
  norm_num [bmiCategory]

/-- C8: the retrieval query is the condition labels joined with single
spaces, it is never empty for a successfully analysed input (the weight
label is always present), and retrieval asks for the top 2 documents. -/
theorem C8_query_construction (age : ℤ) (weight height : ℚ) (bp : String)
    (sugar cholesterol : ℚ) (r : HealthResults)
    (hr : analyze_health age weight height bp sugar cholesterol = some r) :
    build_query r.conditions = pyJoin " " r.conditions ∧
    build_query r.conditions ≠ "" ∧
    similarity_top_k = 2 := by
  refine ⟨rfl, ?_, rfl⟩
  have hh : height ≠ 0 := by
    intro h0
    rw [h0] at hr
    simp [analyze_health] at hr
  rw [analyze_health_eq age weight height bp sugar cholesterol hh] at hr
  injection hr with hr
  subst hr
  dsimp only
  have hshape :
      (([bmiCategory (pyRound1 (calculate_bmi weight height))] ++
          (match parse_bp bp with
            | some (systolic, diastolic) =>
              if systolic ≥ 140 ∨ diastolic ≥ 90 then ["Hypertension"] else []
            | none => [])) ++
          (if sugar ≥ 126 then ["High Blood Sugar"] else [])) ++
          (if cholesterol ≥ 200 then ["High Cholesterol"] else []) =
        bmiCategory (pyRound1 (calculate_bmi weight height)) ::
          (((match parse_bp bp with
            | some (systolic, diastolic) =>
              if systolic ≥ 140 ∨ diastolic ≥ 90 then ["Hypertension"] else []
            | none => []) ++
            (if sugar ≥ 126 then ["High Blood Sugar"] else [])) ++
            (if cholesterol ≥ 200 then ["High Cholesterol"] else [])) := by
    simp
  rw [hshape]
  unfold build_query
  intro hempty
  have h1 := pyJoin_length (bmiCategory (pyRound1 (calculate_bmi weight height)))
    (((match parse_bp bp with
      | some (systolic, diastolic) =>
        if systolic ≥ 140 ∨ diastolic ≥ 90 then ["Hypertension"] else []
      | none => []) ++
      (if sugar ≥ 126 then ["High Blood Sugar"] else [])) ++
      (if cholesterol ≥ 200 then ["High Cholesterol"] else []))
  rw [hempty] at h1
  have h2 := bmiCategory_length_pos (pyRound1 (calculate_bmi weight height))
  simp at h1
  omega

/-- Witness for C8 at the healthy scenario. -/
theorem C8_query_construction_witness :
    build_query (HealthResults.conditions ⟨121/5, ["Normal weight"], 30, false⟩)
        = pyJoin " " (HealthResults.conditions ⟨121/5, ["Normal weight"], 30, false⟩) ∧
    build_query (HealthResults.conditions ⟨121/5, ["Normal weight"], 30, false⟩) ≠ "" ∧
    similarity_top_k = 2 :=
  C8_query_construction 30 70 170 "120/80" 100 180 _ eval_normal

/-- Rationals in the window 24.95 ≤ x < 25 round to 25 at one decimal
(the lower endpoint is a tie and 250 is even). -/
theorem pyRound1_interval_25 (x : ℚ) (h1 : 499/20 ≤ x) (h2 : x < 25) :
    pyRound1 x = 25 := by
  have hr : round_half_even (x * 10) = 250 := by
    rcases eq_or_lt_of_le (by linarith : (499/2 : ℚ) ≤ x * 10) with heq | hlt
    · rw [← heq, round_half_even]
      norm_num
    · exact round_half_even_eq_of_near _ 250 (by push_cast; linarith) (by push_cast; linarith)
  rw [pyRound1, hr]
  norm_num

/-- Rationals in the window 29.95 ≤ x < 30 round to 30 at one decimal
(the lower endpoint is a tie and 300 is even). -/
theorem pyRound1_interval_30 (x : ℚ) (h1 : 599/20 ≤ x) (h2 : x < 30) :
    pyRound1 x = 30 := by
  have hr : round_half_even (x * 10) = 300 := by
    rcases eq_or_lt_of_le (by linarith : (599/2 : ℚ) ≤ x * 10) with heq | hlt
    · rw [← heq, round_half_even]
      norm_num
    · exact round_half_even_eq_of_near _ 300 (by push_cast; linarith) (by push_cast; linarith)
  rw [pyRound1, hr]
  norm_num

/-- Rationals strictly between 18.45 and 18.5 round to 18.5 at one
decimal.  (At exactly 18.45 the tie goes to the even value 184, that is to
18.4, so the lower endpoint is excluded here.) -/
theorem pyRound1_interval_185 (x : ℚ) (h1 : 369/20 < x) (h2 : x < 37/2) :
    pyRound1 x = 37/2 := by
  have hr : round_half_even (x * 10) = 185 :=
    round_half_even_eq_of_near _ 185 (by push_cast; linarith) (by push_cast; linarith)
  rw [pyRound1, hr]
  norm_num

/-- C9: the stored BMI is the raw quotient rounded to one decimal and the
weight label is computed from that rounded value, not from the raw
quotient: every raw BMI in the window 24.95 ≤ raw < 25 is stored as 25.0
and labelled "Overweight", every raw BMI in 29.95 ≤ raw < 30 is stored as
30.0 and labelled "Obese", and every raw BMI strictly between 18.45 and
18.5 is stored as 18.5 and labelled "Normal weight". -/
theorem C9_classification_on_rounded_bmi (age : ℤ) (weight height : ℚ) (bp : String)
    (sugar cholesterol : ℚ) (r : HealthResults)
    (hr : analyze_health age weight height bp sugar cholesterol = some r) :
    r.bmi = pyRound1 (calculate_bmi weight height) ∧
    r.conditions.head? = some (bmiCategory (pyRound1 (calculate_bmi weight height))) ∧
    (24.95 ≤ calculate_bmi weight height ∧ calculate_bmi weight height < 25 →
      r.bmi = 25 ∧ r.conditions.head? = some "Overweight") ∧
    (29.95 ≤ calculate_bmi weight height ∧ calculate_bmi weight height < 30 →
      r.bmi = 30 ∧ r.conditions.head? = some "Obese") ∧
    (18.45 < calculate_bmi weight height ∧ calculate_bmi weight height < 18.5 →
      r.bmi = 18.5 ∧ r.conditions.head? = some "Normal weight") := by
  have hh : height ≠ 0 := by
    intro h0
    rw [h0] at hr
    simp [analyze_health] at hr
  rw [analyze_health_eq age weight height bp sugar cholesterol hh] at hr
  injection hr with hr
  subst hr
  dsimp only
  have hcat25 : bmiCategory (25:ℚ) = "Overweight" := by rw [bmiCategory]; norm_num
  have hcat30 : bmiCategory (30:ℚ) = "Obese" := by rw [bmiCategory]; norm_num
  have hcat185 : bmiCategory (37/2:ℚ) = "Normal weight" := by rw [bmiCategory]; norm_num
  refine ⟨rfl, by simp, ?_, ?_, ?_⟩
  · rintro ⟨ha, hb⟩
    have h25 : pyRound1 (calculate_bmi weight height) = 25 :=
      pyRound1_interval_25 _ (by linarith [show (24.95:ℚ) = 499/20 by norm_num]) hb
    rw [h25, hcat25]
    exact ⟨rfl, by simp⟩
  · rintro ⟨ha, hb⟩
    have h30 : pyRound1 (calculate_bmi weight height) = 30 :=
      pyRound1_interval_30 _ (by linarith [show (29.95:ℚ) = 599/20 by norm_num]) hb
    rw [h30, hcat30]
    exact ⟨rfl, by simp⟩
  · rintro ⟨ha, hb⟩
    have h185 : pyRound1 (calculate_bmi weight height) = 37/2 :=
      pyRound1_interval_185 _ (by linarith [show (18.45:ℚ) = 369/20 by norm_num])
        (by linarith [show (18.5:ℚ) = 37/2 by norm_num])
    rw [h185, hcat185]
    refine ⟨by norm_num, by simp⟩

/-- Witness for C9: weight 72.2 kg and height 170 cm give a raw BMI just
below 25 that is stored as 25.0 and classified "Overweight". -/
theorem C9_classification_on_rounded_bmi_witness :
    (HealthResults.bmi ⟨25, ["Overweight"], 30, false⟩)
        = pyRound1 (calculate_bmi (361/5) 170) ∧
    (HealthResults.conditions ⟨25, ["Overweight"], 30, false⟩).head?
        = some (bmiCategory (pyRound1 (calculate_bmi (361/5) 170))) ∧
    (24.95 ≤ calculate_bmi (361/5) 170 ∧ calculate_bmi (361/5) 170 < 25 →
      (HealthResults.bmi ⟨25, ["Overweight"], 30, false⟩) = 25 ∧
      (HealthResults.conditions ⟨25, ["Overweight"], 30, false⟩).head? = some "Overweight") ∧
    (29.95 ≤ calculate_bmi (361/5) 170 ∧ calculate_bmi (361/5) 170 < 30 →
      (HealthResults.bmi ⟨25, ["Overweight"], 30, false⟩) = 30 ∧
      (HealthResults.conditions ⟨25, ["Overweight"], 30, false⟩).head? = some "Obese") ∧
    (18.45 < calculate_bmi (361/5) 170 ∧ calculate_bmi (361/5) 170 < 18.5 →
      (HealthResults.bmi ⟨25, ["Overweight"], 30, false⟩) = 18.5 ∧
      (HealthResults.conditions ⟨25, ["Overweight"], 30, false⟩).head?
        = some "Normal weight") :=
  C9_classification_on_rounded_bmi 30 (361/5) 170 "120/80" 100 180 _ eval_rounding_edge

/-- C10: the plan renderer prefixes "- " to every recommendation string;
extracted recommendations already carry the marker, so each of their
rendered lines starts with the doubled marker "- - ", while the rendered
default recommendations start with a single "- " and never with "- - ". -/
theorem C10_doubled_marker (context : String)
    (hne : context ≠ "")
    (hq : (pySplit context '\n').filter (fun line => pyStartswith (pyStrip line) "- ") ≠ []) :
    (∀ line ∈ rendered_recommendation_lines (extract_recommendations context),
        pyStartswith line "- - " = true) ∧
    (∀ line ∈ rendered_recommendation_lines default_recommendations,
        pyStartswith line "- " = true ∧ pyStartswith line "- - " = false) := by
  constructor
  · intro line hline
    have hex : extract_recommendations context =
        ((pySplit context '\n').filter
            (fun l => pyStartswith (pyStrip l) "- ")).map pyStrip := by
      unfold extract_recommendations
      rw [if_neg hne, extract_foldl_eq]
      simp only [List.nil_append]
      rw [if_neg (by simpa [List.map_eq_nil_iff] using hq)]
    rw [hex] at hline
    unfold rendered_recommendation_lines at hline
    obtain ⟨r0, hr0, rfl⟩ := List.mem_map.mp hline
    obtain ⟨l0, hl0, rfl⟩ := List.mem_map.mp hr0
    exact pyStartswith_append_marker _ (List.mem_filter.mp hl0).2
  · decide

/-- Witness for C10 at a two-line context with one qualifying line. -/
theorem C10_doubled_marker_witness :
    (∀ line ∈ rendered_recommendation_lines (extract_recommendations "- Eat vegetables\nnote"),
        pyStartswith line "- - " = true) ∧
    (∀ line ∈ rendered_recommendation_lines default_recommendations,
        pyStartswith line "- " = true ∧ pyStartswith line "- - " = false) :=
  C10_doubled_marker "- Eat vegetables\nnote" (by decide) (by decide)
